import Mathlib

/-!
# Web Health Monitor — verification of the specification against the source

Shallow embedding of the check-execution and worker pipeline of the
`web-health-monitor` repository: the HTTP liveness probe
(`checker.py`, `HTTPCheckStrategy.check`), the performance-audit strategy
(`checker.py`, `PerformanceAuditStrategy.check`), the stats aggregator
(`models.py`, `Monitor.update_stats`), the worker task handlers
(`worker.py`, `process_check`, `process_audit`, `callback`) and the
circuit breaker configured in `worker.py`.

Machine reals of the source (Python floats) are modelled by exact
rationals `ℚ`; Python's `int(x)` on a non-negative value is the floor,
and Python's `round` is round-half-to-even.  Wall-clock instants are
modelled as natural numbers (seconds); elapsed response times as natural
numbers (milliseconds).  Network effects are modelled by passing the
outcome of each network call (status + payload, or a raised exception)
as an explicit argument, one outcome per attempt.
-/

namespace WebHealth

/-- Python's `round` to the nearest integer: round half to even
(banker's rounding), on exact rationals. -/
def pyRoundInt (q : ℚ) : ℤ :=
  let f := ⌊q⌋
  let frac := q - (f : ℚ)
  if frac < 1/2 then f
  else if 1/2 < frac then f + 1
  else if f % 2 = 0 then f else f + 1

/-- Python's `round(q, 2)`: round to two decimal places, half to even. -/
def pyRound2 (q : ℚ) : ℚ :=
  (pyRoundInt (q * 100) : ℚ) / 100

/-- Python's `round(q, 1)`. -/
def pyRound1 (q : ℚ) : ℚ :=
  (pyRoundInt (q * 10) : ℚ) / 10

/-- Python's `round(q, 3)`. -/
def pyRound3 (q : ℚ) : ℚ :=
  (pyRoundInt (q * 1000) : ℚ) / 1000

/-- One entry of the `perf_details` list built by
`PerformanceAuditStrategy.check` (`checker.py` lines 84–88):
`{"title": ..., "description": ..., "score": ...}`, every component read
with `.get` and hence possibly absent. -/
structure AuditItem where
  title : Option String
  description : Option String
  score : Option ℚ
deriving Repr, DecidableEq

/-- The `monitors` row (`models.py`, class `Monitor`): identity and config
columns, the rolling-stats columns, and the audit snapshot columns added
by the migration in `app.py`.  Column defaults are the source defaults. -/
structure Monitor where
  id : ℕ
  name : String := ""
  url : String := ""
  interval_seconds : ℕ := 60
  is_active : Bool := true
  last_check_at : Option ℕ := none
  last_status : Option Bool := none
  uptime_percentage : ℚ := 100
  total_checks : ℕ := 0
  successful_checks : ℕ := 0
  avg_response_ms : Option ℕ := none
  timeout_seconds : ℕ := 10
  retry_count : ℕ := 2
  perf_score : Option ℚ := none
  perf_seo : Option ℚ := none
  perf_accessible : Option ℚ := none
  perf_best_practices : Option ℚ := none
  perf_fcp : Option ℚ := none
  perf_lcp : Option ℚ := none
  perf_cls : Option ℚ := none
  perf_tbt : Option ℚ := none
  perf_details : Option (List AuditItem) := none
  perf_screenshot : Option String := none
  perf_thumbnails : Option (List String) := none
deriving Repr, DecidableEq

/-- The `check_results` row (`models.py`, class `CheckResult`).
`retry_attempts` has column default `0` and `ssl_valid` default `NULL`;
`process_check` never passes either, so persisted rows keep the
defaults. -/
structure CheckResult where
  monitor_id : ℕ
  is_up : Bool
  status_code : Option ℕ
  response_ms : Option ℕ
  error : Option String
  retry_attempts : ℕ := 0
  ssl_valid : Option Bool := none
deriving Repr, DecidableEq

/-- `Monitor.update_stats` (`models.py` lines 31–50), translated
statement by statement.  `int(self.avg_response_ms * 0.8 + response_ms
* 0.2)` truncates the exact value `(4*old + rms)/5` towards zero; on
these non-negative inputs that is the floor, i.e. `Nat` division
`(4*old + rms) / 5` (the chosen test points sit far from any
float-representation boundary). `func.now()` is modelled by the `now`
argument. -/
def Monitor.update_stats (m : Monitor) (is_up : Bool)
    (response_ms : Option ℕ) (now : ℕ) : Monitor :=
  let total := m.total_checks + 1
  let succ_ := m.successful_checks + (if is_up then 1 else 0)
  let uptime :=
    if 0 < total then pyRound2 ((succ_ : ℚ) / (total : ℚ) * 100)
    else m.uptime_percentage
  let avg :=
    match response_ms, is_up with
    | some rms, true =>
        match m.avg_response_ms with
        | none => some rms
        | some old => some ((4 * old + rms) / 5)
    | _, _ => m.avg_response_ms
  { m with
      total_checks := total
      successful_checks := succ_
      uptime_percentage := uptime
      avg_response_ms := avg
      last_status := some is_up
      last_check_at := some now }

/-- What the spec's Stats Aggregator paragraph prescribes for the EMA
step on a subsequent successful sample: `new = round(old*0.8 +
sample*0.2)` (Python `round`, half to even), to be compared with the
truncation that `Monitor.update_stats` performs. -/
def specEmaStep (old rms : ℕ) : ℤ :=
  pyRoundInt ((old : ℚ) * (4/5) + (rms : ℚ) * (1/5))

/-- Outcome of the single `client.get(url)` inside
`HTTPCheckStrategy.check`: either a response with a status code, or a
raised exception whose text is `msg`. -/
inductive ProbeOutcome where
  | resp (status : ℕ)
  | exc (msg : String)
deriving Repr, DecidableEq

/-- Result dict of `HTTPCheckStrategy.check` (`checker.py` lines 25 and
28): exactly the four keys `is_up`, `status_code`, `response_ms`,
`error`. -/
structure ProbeResult where
  is_up : Bool
  status_code : Option ℕ
  response_ms : ℕ
  error : Option String
deriving Repr, DecidableEq

/-- The timeout hard-coded in `httpx.AsyncClient(timeout=5.0, ...)` in
`HTTPCheckStrategy.check` (`checker.py` line 21); seconds. -/
def httpCheckTimeout : ℚ := 5

namespace HTTPCheckStrategy

/-- `HTTPCheckStrategy.check` (`checker.py` lines 17–28) on the outcome
of its one HTTP request.  `ms` is the measured elapsed time.  The `try`
block covers the whole request, so an exception becomes a result record
and is never re-raised: this function is total. -/
def check (o : ProbeOutcome) (ms : ℕ) : ProbeResult :=
  match o with
  | .resp s => ⟨decide (200 ≤ s ∧ s < 400), some s, ms, none⟩
  | .exc m => ⟨false, none, ms, some m⟩

/-- `HTTPCheckStrategy.check` consuming a stream of per-attempt
outcomes: the source has no retry loop, so only the outcome of attempt
0 is ever consulted. -/
def checkSeq (outcomes : ℕ → ProbeOutcome) (ms : ℕ) : ProbeResult :=
  check (outcomes 0) ms

/-- Sleeps performed by `HTTPCheckStrategy.check` between attempts:
there is no loop and no `sleep` call in the source. -/
def checkSleeps : List ℚ := []

end HTTPCheckStrategy

/-- Modelled from the spec (§4.1 Probe Executor): the probe contract the
specification describes — a URL, a timeout, a maximum retry count and an
SSL-verification flag; retry on failure while attempts remain, sleeping
`0.5 × attempt_index` between attempts; result record extended with
`retry_attempts` (attempts consumed minus one) and `ssl_valid`.  This
definition follows the spec's words and exists only to be compared with
`HTTPCheckStrategy.check`, which is the code. -/
structure SpecProbeResult where
  is_up : Bool
  status_code : Option ℕ
  response_ms : ℕ
  error : Option String
  retry_attempts : ℕ
  ssl_valid : Option Bool
deriving Repr, DecidableEq

/-- Modelled from the spec (§4.1): the spec's Probe Executor consuming
per-attempt outcomes, retrying failed attempts while attempts remain
(at most `maxRetries` attempts in total), returning the attempt index
consumed.  `https` says whether the target scheme is https. -/
def specProbeGo (outcomes : ℕ → ProbeOutcome) (ms : ℕ) (https : Bool) :
    (remaining attemptIdx : ℕ) → SpecProbeResult
  | 0, i => -- attempts exhausted: report the last outcome, consumed = i
      (match outcomes (i - 1) with
       | .resp s => ⟨decide (200 ≤ s ∧ s < 400), some s, ms, none, i - 1, none⟩
       | .exc m => ⟨false, none, ms, some m, i - 1, none⟩)
  | (r+1), i =>
      (match outcomes i with
       | .resp s =>
           if 200 ≤ s ∧ s < 400 then
             ⟨true, some s, ms, none, i, if https then some true else none⟩
           else if r = 0 then
             ⟨false, some s, ms, none, i, none⟩
           else specProbeGo outcomes ms https r (i+1)
       | .exc m =>
           if r = 0 then ⟨false, none, ms, some m, i, none⟩
           else specProbeGo outcomes ms https r (i+1))

/-- Modelled from the spec (§4.1): the spec's Probe Executor with
`maxRetries` total attempts. -/
def specProbeCheck (outcomes : ℕ → ProbeOutcome) (ms : ℕ) (https : Bool)
    (maxRetries : ℕ) : SpecProbeResult :=
  specProbeGo outcomes ms https maxRetries 0

end WebHealth

namespace WebHealth

/-- One entry of the PSI payload's `lighthouseResult.audits` dict as the
source reads it: `title`, `description`, `score` via `.get`, a
`numericValue` for the vitals, and the `details.data` /
`details.items` used for the screenshot and thumbnails. -/
structure AuditData where
  title : Option String := none
  description : Option String := none
  score : Option ℚ := none
  numericValue : Option ℚ := none
  detailsData : Option String := none
  detailsItems : List String := []
deriving Repr, DecidableEq

/-- The parts of a 200 PSI response body that
`PerformanceAuditStrategy.check` reads: the four category scores
(`lighthouseResult.categories.*.score`) and the ordered `audits`
dict. -/
structure Payload where
  perfCat : Option ℚ := none
  seoCat : Option ℚ := none
  accCat : Option ℚ := none
  bpCat : Option ℚ := none
  audits : List (String × AuditData) := []
deriving Repr, DecidableEq

/-- `audits.get(key, {})` on the ordered audits dict. -/
def auditsGet (audits : List (String × AuditData)) (key : String) :
    Option AuditData :=
  (audits.find? (fun p => p.1 = key)).map (fun p => p.2)

/-- `audits.get(key, {}).get("numericValue", 0)`. -/
def numericOf (audits : List (String × AuditData)) (key : String) : ℚ :=
  ((auditsGet audits key).bind (fun a => a.numericValue)).getD 0

/-- One iteration of the `failing_audits` accumulation loop of
`PerformanceAuditStrategy.check` (`checker.py` lines 82–88): append the
entry when its score is present and < 0.9, keep the accumulator
otherwise. -/
def failingStep (acc : List AuditItem) (p : String × AuditData) :
    List AuditItem :=
  match p.2.score with
  | some sc =>
      if sc < 9/10 then acc ++ [⟨p.2.title, p.2.description, some sc⟩]
      else acc
  | none => acc

/-- The `failing_audits` accumulation loop of
`PerformanceAuditStrategy.check` (`checker.py` lines 81–88): iterate the
audits dict in order, appending every entry whose score is present and
< 0.9. -/
def failingAudits (audits : List (String × AuditData)) : List AuditItem :=
  audits.foldl failingStep []

/-- Eligibility test of the loop: score present and < 0.9. -/
def eligibleAudit (p : String × AuditData) : Bool :=
  match p.2.score with
  | some sc => decide (sc < 9/10)
  | none => false

/-- Projection of an eligible audits-dict entry to a `perf_details`
item. -/
def toAuditItem (p : String × AuditData) : AuditItem :=
  ⟨p.2.title, p.2.description, p.2.score⟩

/-- The success record returned on a 200 PSI response
(`checker.py` lines 91–104), minus the constant `error: None`. -/
structure AuditOk where
  perf_score : ℚ
  perf_seo : ℚ
  perf_accessible : ℚ
  perf_best_practices : ℚ
  perf_fcp : ℚ
  perf_lcp : ℚ
  perf_cls : ℚ
  perf_tbt : ℚ
  perf_details : List AuditItem
  perf_screenshot : Option String
  perf_thumbnails : List String
deriving Repr, DecidableEq

/-- Return value of `PerformanceAuditStrategy.check`: either the success
record (with `error: None`) or a dict carrying only an `error`
message. -/
inductive AuditResult where
  | ok (r : AuditOk)
  | err (msg : String)
deriving Repr, DecidableEq

/-- Parsing of a 200 PSI response body (`checker.py` lines 58–104):
category scores scaled by 100 and rounded to 1 decimal (absent scores
default to 0), FCP/LCP divided by 1000 and rounded to 2 decimals, CLS
rounded to 3 decimals, TBT rounded to 0 decimals, the first 10 failing
audits, screenshot and thumbnails. -/
def parsePSI (p : Payload) : AuditOk :=
  { perf_score := pyRound1 (p.perfCat.getD 0 * 100)
    perf_seo := pyRound1 (p.seoCat.getD 0 * 100)
    perf_accessible := pyRound1 (p.accCat.getD 0 * 100)
    perf_best_practices := pyRound1 (p.bpCat.getD 0 * 100)
    perf_fcp := pyRound2 (numericOf p.audits "first-contentful-paint" / 1000)
    perf_lcp := pyRound2 (numericOf p.audits "largest-contentful-paint" / 1000)
    perf_cls := pyRound3 (numericOf p.audits "cumulative-layout-shift")
    perf_tbt := (pyRoundInt (numericOf p.audits "total-blocking-time") : ℚ)
    perf_details := (failingAudits p.audits).take 10
    perf_screenshot :=
      (auditsGet p.audits "final-screenshot").bind (fun a => a.detailsData)
    perf_thumbnails :=
      ((auditsGet p.audits "screenshot-thumbnails").map
        (fun a => a.detailsItems)).getD [] }

/-- Outcome of one `client.get(base_url, params=params)` call inside the
audit retry loop: a response with status and body, or a raised
exception. -/
inductive ApiOutcome where
  | resp (status : ℕ) (body : Payload)
  | exc (msg : String)
deriving Repr, DecidableEq

namespace PerformanceAuditStrategy

/-- The retry loop of `PerformanceAuditStrategy.check`
(`checker.py` lines 49–124), one recursion step per `for attempt in
range(max_retries)` iteration.  `remaining` counts iterations left
(starts at `max_retries = 3`), `i` is the attempt index, `delay` the
current `retry_delay` (starts at 5 s).  The function also returns the
list of `asyncio.sleep` durations performed, in order.  On 429 with
attempts remaining the loop sleeps `delay` and then doubles it; on an
exception with attempts remaining it sleeps `delay` and does NOT double
it (`checker.py` lines 118–122 have no `retry_delay *= 2`). -/
def go (outcomes : ℕ → ApiOutcome) :
    (remaining i delay : ℕ) → (sleeps : List ℕ) → AuditResult × List ℕ
  | 0, _, _, sleeps => (.err "Failed after max retries or unknown error", sleeps)
  | (r+1), i, delay, sleeps =>
      match outcomes i with
      | .resp s body =>
          if s = 200 then (.ok (parsePSI body), sleeps)
          else if s = 429 then
            if 0 < r then go outcomes r (i+1) (delay * 2) (sleeps ++ [delay])
            else (.err "Google API Limit Reached (429). Please add an API Key.", sleeps)
          else (.err ("API Error " ++ toString s), sleeps)
      | .exc msg =>
          if 0 < r then go outcomes r (i+1) delay (sleeps ++ [delay])
          else (.err msg, sleeps)

/-- `PerformanceAuditStrategy.check`: the loop entered with
`max_retries = 3` attempts, attempt index 0 and `retry_delay = 5`. -/
def check (outcomes : ℕ → ApiOutcome) : AuditResult × List ℕ :=
  go outcomes 3 0 5 []

end PerformanceAuditStrategy

/-- Modelled from the spec (§4.2 / claim C4): the same retry loop but
with a network-level exception "retried under the same doubling-backoff
policy as a 429", i.e. the delay also doubles after an exception sleep.
This definition follows the spec's words and exists only to be compared
with `PerformanceAuditStrategy.go`, which is the code. -/
def specAuditGo (outcomes : ℕ → ApiOutcome) :
    (remaining i delay : ℕ) → (sleeps : List ℕ) → AuditResult × List ℕ
  | 0, _, _, sleeps => (.err "Failed after max retries or unknown error", sleeps)
  | (r+1), i, delay, sleeps =>
      match outcomes i with
      | .resp s body =>
          if s = 200 then (.ok (parsePSI body), sleeps)
          else if s = 429 then
            if 0 < r then specAuditGo outcomes r (i+1) (delay * 2) (sleeps ++ [delay])
            else (.err "Google API Limit Reached (429). Please add an API Key.", sleeps)
          else (.err ("API Error " ++ toString s), sleeps)
      | .exc msg =>
          if 0 < r then specAuditGo outcomes r (i+1) (delay * 2) (sleeps ++ [delay])
          else (.err msg, sleeps)

/-- Modelled from the spec: `specAuditGo` entered like the source loop. -/
def specAuditCheck (outcomes : ℕ → ApiOutcome) : AuditResult × List ℕ :=
  specAuditGo outcomes 3 0 5 []

/-- Outcome of `await resilient_check(monitor)` as seen by
`process_check`: a probe result, or a raised exception (e.g. the
breaker's open-circuit error), which the inner `except` swallows. -/
inductive CheckExec where
  | done (r : ProbeResult)
  | raised (msg : String)
deriving Repr, DecidableEq

/-- `process_check` (`worker.py` lines 105–156) on the monitor lookup
result and the probe execution outcome; returns the monitor row as left
by the handler and the list of `CheckResult` rows persisted.  The
source adds and commits exactly one `CheckResult` built from the result
dict (with `retry_attempts` and `ssl_valid` left at their column
defaults) and never touches the monitor row: `Monitor.update_stats` is
not called anywhere in `worker.py`. -/
def process_check (m? : Option Monitor) (exec : CheckExec) :
    Option Monitor × List CheckResult :=
  match m? with
  | none => (none, [])
  | some m =>
      match exec with
      | .raised _ => (some m, [])
      | .done r =>
          (some m,
           [{ monitor_id := m.id
              is_up := r.is_up
              status_code := r.status_code
              response_ms := some r.response_ms
              error := r.error }])

/-- `process_audit` (`worker.py` lines 35–102) on the monitor lookup
result and the audit result; returns the monitor row as left by the
handler and whether `db.commit()` ran.  Only an error-free result
reaches the assignment block and the commit; an error result raises
(`worker.py` line 81), is caught, and leaves the row untouched with no
commit.  (An error record carrying the empty string would take the
success branch but die with a `KeyError` on `result["perf_score"]`
before any assignment — also no change, no commit.) -/
def process_audit (m? : Option Monitor) (result : AuditResult) :
    Option Monitor × Bool :=
  match m? with
  | none => (none, false)
  | some m =>
      match result with
      | .err _ => (some m, false)
      | .ok r =>
          (some { m with
                    perf_score := some r.perf_score
                    perf_seo := some r.perf_seo
                    perf_accessible := some r.perf_accessible
                    perf_best_practices := some r.perf_best_practices
                    perf_fcp := some r.perf_fcp
                    perf_lcp := some r.perf_lcp
                    perf_cls := some r.perf_cls
                    perf_tbt := some r.perf_tbt
                    perf_details := some r.perf_details
                    perf_screenshot := r.perf_screenshot
                    perf_thumbnails := some r.perf_thumbnails },
           true)

end WebHealth

namespace WebHealth

/-- Circuit-breaker state names of the spec's §4.3 state machine.  A
breaker whose state is `opened` behaves as HALF-OPEN once the recovery
timeout has elapsed. -/
inductive BreakerState where
  | closed
  | opened
deriving Repr, DecidableEq

/-- Modelled from the spec: the `circuitbreaker` library behind the
`@circuit(failure_threshold=5, recovery_timeout=60)` decorator on
`resilient_check` (`worker.py` lines 30–32) is an external dependency
whose code is not under `src/`; its state machine is taken from the
spec's §4.3 description.  `failures` counts consecutive failures while
CLOSED; `openedAt` is the instant the breaker last opened. -/
structure Breaker where
  st : BreakerState
  failures : ℕ
  openedAt : ℕ
deriving Repr, DecidableEq

/-- The breaker as created at worker start: CLOSED with no recorded
failures. -/
def Breaker.init : Breaker := ⟨.closed, 0, 0⟩

/-- `failure_threshold` of the decorator in `worker.py` line 30. -/
def failureThreshold : ℕ := 5

/-- `recovery_timeout` of the decorator in `worker.py` line 30
(seconds). -/
def recoveryTimeout : ℕ := 60

/-- Outcome of one call through the breaker: rejected without invoking
the wrapped probe, or ran with the wrapped probe's success flag. -/
inductive BreakerOutcome where
  | rejected
  | ran (success : Bool)
deriving Repr, DecidableEq

/-- Modelled from the spec (§4.3): one call through the breaker at
instant `now`, where `probe` is what the wrapped operation would return
if invoked.  The second component of the result records whether the
wrapped operation was actually invoked.  CLOSED: the call passes; a
success resets the consecutive-failure count, the `failure_threshold`-th
consecutive failure opens the breaker and starts the timer.  OPEN within
`recovery_timeout` of opening: the call is rejected without invoking the
wrapped operation.  OPEN after the timeout (HALF-OPEN): one trial call
passes; success closes the breaker, failure re-opens it and resets the
timer. -/
def Breaker.call (b : Breaker) (now : ℕ) (probe : Bool) :
    (BreakerOutcome × Bool) × Breaker :=
  match b.st with
  | .closed =>
      if probe then ((.ran true, true), ⟨.closed, 0, b.openedAt⟩)
      else if failureThreshold ≤ b.failures + 1 then
        ((.ran false, true), ⟨.opened, b.failures + 1, now⟩)
      else ((.ran false, true), ⟨.closed, b.failures + 1, b.openedAt⟩)
  | .opened =>
      if now < b.openedAt + recoveryTimeout then ((.rejected, false), b)
      else
        if probe then ((.ran true, true), ⟨.closed, 0, b.openedAt⟩)
        else ((.ran false, true), ⟨.opened, b.failures, now⟩)

/-- Fold a sequence of calls (instant, would-be probe outcome) through
the breaker, returning the final breaker and the number of times the
wrapped operation was invoked. -/
def Breaker.run (b : Breaker) : List (ℕ × Bool) → Breaker × ℕ
  | [] => (b, 0)
  | c :: cs =>
      let step := b.call c.1 c.2
      let rest := Breaker.run step.2 cs
      (rest.1, (if step.1.2 then 1 else 0) + rest.2)

/-- The body a task delivered to the worker `callback`
(`worker.py` lines 159–176) can carry: bytes that fail to decode or
parse as JSON, or a parsed task object whose `monitor_id` may be
missing. -/
inductive TaskBody where
  | malformed (raw : String)
  | task (monitor_id : Option ℕ) (task_type : String) (strategy : String)
deriving Repr, DecidableEq

/-- Outcome of the dispatched `asyncio.run(process_…)` call: normal
return, or an exception propagating out of the handler. -/
inductive ProcOutcome where
  | ok
  | raises (msg : String)
deriving Repr, DecidableEq

/-- What `callback` does with a delivery: whether it acknowledged the
task, whether it requeued it, and whether it logged an error. -/
structure CallbackEffect where
  acked : Bool
  requeued : Bool
  loggedError : Bool
deriving Repr, DecidableEq

/-- `callback` (`worker.py` lines 159–176): the whole parse-and-dispatch
body sits in a `try` whose `except` logs the exception; `basic_ack` runs
unconditionally after the `try`/`except`, and no `basic_nack`/requeue
exists in the source.  A missing `monitor_id` skips dispatch silently. -/
def callback (body : TaskBody) (proc : ProcOutcome) : CallbackEffect :=
  match body with
  | .malformed _ => ⟨true, false, true⟩
  | .task mid _ _ =>
      match mid with
      | none => ⟨true, false, false⟩
      | some _ =>
          match proc with
          | .ok => ⟨true, false, false⟩
          | .raises _ => ⟨true, false, true⟩

/-- A payload whose audits dict holds ten failing entries with score 0.5
followed by one with score 0: eleven eligible sub-audits, the last one
strictly the lowest-scoring. -/
def c5Audits : List (String × AuditData) :=
  ((List.range 10).map
    (fun i => (toString i, ({ score := some (1/2) } : AuditData))))
    ++ [("worst", { score := some 0 })]

end WebHealth

namespace WebHealth

/-- C7: for every probe whose HTTP request completes with a status code,
the returned `is_up` is true if and only if the final status code lies
in the interval [200, 400)  (`checker.py` line 24). -/
theorem C7_is_up_iff_status_in_range (s ms : ℕ) :
    (HTTPCheckStrategy.check (.resp s) ms).is_up = true ↔ 200 ≤ s ∧ s < 400 := by
  simp [HTTPCheckStrategy.check]

/-- C8: every exception raised during a probe attempt is caught inside
`HTTPCheckStrategy.check` and converted into a result record with
`is_up = false`, `status_code = null` and the exception text in the
`error` field; the function is total, so no exception escapes to the
caller  (`checker.py` lines 26–28). -/
theorem C8_exceptions_become_error_records (msg : String) (ms : ℕ) :
    HTTPCheckStrategy.check (.exc msg) ms =
      { is_up := false, status_code := none, response_ms := ms, error := some msg } :=
  rfl

/-- C9: for every task delivered to the worker `callback` — a body that
fails to parse, a task whose monitor is missing, or processing that
raises — the task is acknowledged and never requeued
(`worker.py` lines 159–176: `basic_ack` runs after the `try`/`except`,
unconditionally, and the source contains no requeue). -/
theorem C9_callback_always_acks (body : TaskBody) (proc : ProcOutcome) :
    (callback body proc).acked = true ∧ (callback body proc).requeued = false := by
  cases body with
  | malformed raw => exact ⟨rfl, rfl⟩
  | task mid tt st =>
      cases mid with
      | none => exact ⟨rfl, rfl⟩
      | some i => cases proc <;> exact ⟨rfl, rfl⟩

/-- C10: an audit task whose audit result carries an error, or whose
monitor lookup fails, modifies none of the Monitor's audit snapshot
fields and commits nothing; the snapshot is written (and committed) only
on an error-free audit result  (`worker.py` lines 35–102: the assignment
block and `db.commit()` sit under `if not result.get("error")`, and an
error raises into the `except` branch before any assignment). -/
theorem C10_audit_error_is_a_no_op (m : Monitor) (s : String) (r : AuditResult)
    (okr : AuditOk) :
    process_audit (some m) (.err s) = (some m, false) ∧
    process_audit none r = (none, false) ∧
    (process_audit (some m) (.ok okr)).2 = true := by
  refine ⟨rfl, ?_, rfl⟩
  cases r <;> rfl

end WebHealth

namespace WebHealth

attribute [local semireducible] Rat.mul Rat.add Rat.sub Rat.inv

/-- C1: `process_check` persists exactly one `CheckResult` for a found
monitor, yet returns the monitor row unchanged — the Stats Aggregator
mutation is applied zero times, not once: had `Monitor.update_stats`
been applied, `total_checks` would have changed.  `worker.py`
lines 105–156 contain no call to `update_stats` (nor does any other
file), so the rolling stats stay at their prior values while the
`CheckResult` log grows. -/
theorem C1_checkresult_persisted_but_stats_not_applied
    (m : Monitor) (r : ProbeResult) (now : ℕ) :
    (process_check (some m) (.done r)).1 = some m ∧
    (process_check (some m) (.done r)).2 =
      [{ monitor_id := m.id, is_up := r.is_up, status_code := r.status_code,
         response_ms := some r.response_ms, error := r.error }] ∧
    (Monitor.update_stats m r.is_up (some r.response_ms) now).total_checks
      ≠ m.total_checks := by
  refine ⟨rfl, rfl, ?_⟩
  simp only [Monitor.update_stats]
  omega

/-- C2 counterexample: from a monitor whose rolling average is 101 ms, a
successful sample of 105 ms yields `int(101*0.8 + 105*0.2) = int(101.8)
= 101` in the code, while the claim's `round(101*0.8 + 105*0.2) = 102`:
the EMA step truncates, it does not round. -/
theorem C2_counterexample :
    (Monitor.update_stats
        { id := 1, total_checks := 1, successful_checks := 1,
          avg_response_ms := some 101 }
        true (some 105) 7).avg_response_ms = some 101 ∧
    specEmaStep 101 105 = 102 ∧ (101 : ℕ) ≠ 102 := by
  refine ⟨rfl, ?_, by decide⟩
  decide

/-- C2 (amended): the stats update increments `total_checks` by 1,
increments `successful_checks` iff `is_up`, sets `uptime_percentage` to
`round(successful/total × 100, 2)` on the post-increment counters, and
updates `avg_response_ms` only when `is_up` and a response time is
present — the first successful sample sets it directly, every
subsequent successful sample sets it to the TRUNCATION
`int(old × 0.8 + sample × 0.2)` (= `(4*old + sample) / 5` rounded down),
not `round(...)`; it always sets `last_status = is_up` and
`last_check_at` to now.  (`models.py` lines 31–50.) -/
theorem C2_update_stats_characterization (m : Monitor) (is_up : Bool)
    (rms? : Option ℕ) (now : ℕ) :
    (m.update_stats is_up rms? now).total_checks = m.total_checks + 1 ∧
    (m.update_stats is_up rms? now).successful_checks
        = m.successful_checks + (if is_up then 1 else 0) ∧
    (m.update_stats is_up rms? now).uptime_percentage
        = pyRound2 ((((m.successful_checks + (if is_up then 1 else 0)) : ℕ) : ℚ)
            / (((m.total_checks + 1) : ℕ) : ℚ) * 100) ∧
    (m.update_stats is_up rms? now).last_status = some is_up ∧
    (m.update_stats is_up rms? now).last_check_at = some now ∧
    (∀ rms, rms? = some rms → is_up = true → m.avg_response_ms = none →
        (m.update_stats is_up rms? now).avg_response_ms = some rms) ∧
    (∀ rms old, rms? = some rms → is_up = true → m.avg_response_ms = some old →
        (m.update_stats is_up rms? now).avg_response_ms
          = some ((4 * old + rms) / 5)) ∧
    ((is_up = false ∨ rms? = none) →
        (m.update_stats is_up rms? now).avg_response_ms = m.avg_response_ms) := by
  refine ⟨rfl, rfl, ?_, rfl, rfl, ?_, ?_, ?_⟩
  · simp [Monitor.update_stats]
  · intro rms hr hup hnone
    subst hr; subst hup
    simp [Monitor.update_stats, hnone]
  · intro rms old hr hup hold
    subst hr; subst hup
    simp [Monitor.update_stats, hold]
  · rintro (hup | hr)
    · subst hup
      cases rms? <;> simp [Monitor.update_stats]
    · subst hr
      cases is_up <;> simp [Monitor.update_stats]

/-- Witness for C2's characterization: a first successful 100 ms sample
on a fresh monitor sets the average to exactly 100. -/
theorem C2_witness :
    (Monitor.update_stats { id := 1 } true (some 100) 3).avg_response_ms
      = some 100 :=
  (C2_update_stats_characterization { id := 1 } true (some 100) 3).2.2.2.2.2.1
    100 rfl rfl rfl

end WebHealth

namespace WebHealth

/-- C3 counterexample: on an outcome stream whose first attempt raises
and whose second attempt would return HTTP 200, `HTTPCheckStrategy.check`
reports the monitor down (it never retries, and its result is identical
to the one for a stream that fails on every attempt), while the spec's
retrying Probe Executor with `max_retries = 2` reports it up with
`retry_attempts = 1`; the code also performs no backoff sleeps and its
result dict has no `retry_attempts`/`ssl_valid` keys at all. -/
theorem C3_counterexample :
    (HTTPCheckStrategy.checkSeq
        (fun i => if i = 0 then .exc "timed out" else .resp 200) 5).is_up = false ∧
    HTTPCheckStrategy.checkSeq
        (fun i => if i = 0 then .exc "timed out" else .resp 200) 5
      = HTTPCheckStrategy.checkSeq (fun _ => .exc "timed out") 5 ∧
    (specProbeCheck
        (fun i => if i = 0 then .exc "timed out" else .resp 200) 5 false 2).is_up = true ∧
    (specProbeCheck
        (fun i => if i = 0 then .exc "timed out" else .resp 200) 5 false 2).retry_attempts = 1 ∧
    HTTPCheckStrategy.checkSleeps = [] := by
  refine ⟨rfl, rfl, ?_, ?_, rfl⟩ <;> decide

/-- C3 (amended): the probe executor takes only the URL; the timeout is
the fixed 5 seconds of `httpx.AsyncClient(timeout=5.0)`; it performs
exactly one attempt — its result depends only on the outcome of attempt
0 — with no retries and no backoff sleeps, returning only
`{is_up, status_code|null, response_ms, error|null}`; the persisted
`CheckResult` row gets `retry_attempts = 0` and `ssl_valid = null` from
the column defaults, not from the probe. -/
theorem C3_single_attempt_fixed_timeout (outcomes outcomes' : ℕ → ProbeOutcome)
    (ms : ℕ) (m : Monitor) (h : outcomes 0 = outcomes' 0) :
    HTTPCheckStrategy.checkSeq outcomes ms
      = HTTPCheckStrategy.checkSeq outcomes' ms ∧
    HTTPCheckStrategy.checkSleeps = [] ∧
    httpCheckTimeout = 5 ∧
    ∀ row ∈ (process_check (some m)
        (.done (HTTPCheckStrategy.checkSeq outcomes ms))).2,
      row.retry_attempts = 0 ∧ row.ssl_valid = none := by
  refine ⟨by simp only [HTTPCheckStrategy.checkSeq, h], rfl, rfl, ?_⟩
  intro row hrow
  simp only [process_check, List.mem_singleton] at hrow
  subst hrow
  exact ⟨rfl, rfl⟩

/-- Witness for C3's amended theorem at a concrete stream pair agreeing
on attempt 0. -/
theorem C3_witness :
    HTTPCheckStrategy.checkSeq (fun _ => .resp 204) 5
      = HTTPCheckStrategy.checkSeq
          (fun i => if i = 0 then .resp 204 else .exc "x") 5 :=
  (C3_single_attempt_fixed_timeout (fun _ => .resp 204)
    (fun i => if i = 0 then .resp 204 else .exc "x") 5 { id := 1 } rfl).1

/-- C4 counterexample: on three consecutive network-level exceptions the
code sleeps `[5, 5]` — the `except` branch of the audit loop never
doubles `retry_delay` (`checker.py` lines 118–122) — while the claimed
doubling-backoff policy would sleep `[5, 10]`. -/
theorem C4_counterexample :
    (PerformanceAuditStrategy.check (fun _ => .exc "connection reset")).2
      = [5, 5] ∧
    (specAuditCheck (fun _ => .exc "connection reset")).2 = [5, 10] ∧
    ([5, 5] : List ℕ) ≠ [5, 10] := by
  exact ⟨rfl, rfl, by decide⟩

/-- C4 (amended): HTTP 429 responses are retried with exponential
backoff starting at 5 s and doubling each retry, up to 3 attempts total,
then a terminal error record is returned; any other non-200 status is a
terminal error with no retry and no sleep; a network-level exception is
retried up to the same 3-attempt ceiling but with the CURRENT delay each
time — the delay is not doubled on the exception path (it only grows if
a 429 was interleaved). -/
theorem C4_retry_policy (p : Payload) (msg : String) (s : ℕ)
    (h200 : s ≠ 200) (h429 : s ≠ 429) :
    PerformanceAuditStrategy.check (fun _ => .resp 429 p)
      = (.err "Google API Limit Reached (429). Please add an API Key.",
         [5, 10]) ∧
    PerformanceAuditStrategy.check (fun _ => .resp s p)
      = (.err ("API Error " ++ toString s), []) ∧
    PerformanceAuditStrategy.check (fun _ => .exc msg)
      = (.err msg, [5, 5]) := by
  refine ⟨rfl, ?_, rfl⟩
  simp [PerformanceAuditStrategy.check, PerformanceAuditStrategy.go, h200, h429]

/-- Witness for C4's amended theorem at status 500. -/
theorem C4_witness :
    PerformanceAuditStrategy.check (fun _ => .resp 500 {})
      = (.err ("API Error " ++ toString 500), []) :=
  (C4_retry_policy {} "e" 500 (by decide) (by decide)).2.1

end WebHealth

namespace WebHealth

attribute [local semireducible] Rat.mul Rat.add Rat.sub Rat.inv

/-- The accumulation loop appends, in payload order, exactly the
eligible entries (score present and < 0.9). -/
theorem failingAudits_foldl (audits : List (String × AuditData))
    (acc : List AuditItem) :
    audits.foldl failingStep acc
      = acc ++ (audits.filter eligibleAudit).map toAuditItem := by
  induction audits generalizing acc with
  | nil => simp
  | cons hd tl ih =>
      rw [List.foldl_cons, ih, List.filter_cons]
      cases hsc : hd.2.score with
      | none => simp [failingStep, eligibleAudit, hsc]
      | some sc =>
          by_cases hlt : sc < 9/10 <;>
            simp [failingStep, eligibleAudit, toAuditItem, hsc, hlt]

/-- C5 (amended): `perf_details` is the FIRST 10 sub-audits, in payload
appearance order, whose score is present and < 0.9 — the loop never
sorts by score, so when more than 10 sub-audits are failing the
lowest-scoring ones are not guaranteed to be included
(`checker.py` lines 81–88 and 100: `failing_audits[:10]`). -/
theorem C5_perf_details_first_ten (p : Payload) :
    (parsePSI p).perf_details
      = ((p.audits.filter eligibleAudit).map toAuditItem).take 10 := by
  show (failingAudits p.audits).take 10 = _
  rw [failingAudits, failingAudits_foldl]
  rfl

/-- C5 counterexample: on `c5Audits` the strictly lowest-scoring
eligible sub-audit ("worst", score 0) is absent from `perf_details`,
every included item having score 1/2 > 0 — so `perf_details` does not
contain the 10 lowest-scoring eligible sub-audits. -/
theorem C5_counterexample :
    eligibleAudit ("worst", ({ score := some 0 } : AuditData)) = true ∧
    ("worst", ({ score := some 0 } : AuditData)) ∈ c5Audits ∧
    toAuditItem ("worst", ({ score := some 0 } : AuditData))
      ∉ (parsePSI { audits := c5Audits }).perf_details ∧
    ∀ d ∈ (parsePSI { audits := c5Audits }).perf_details,
      (0 : ℚ) < d.score.getD 1 := by
  decide

end WebHealth

namespace WebHealth

/-- C6: lifecycle of the breaker wrapping the liveness-probe path
(spec-modelled, `@circuit(failure_threshold=5, recovery_timeout=60)` on
`resilient_check`, `worker.py` lines 30–32): the breaker starts CLOSED;
five consecutive failures (each invoking the wrapped probe) leave it
OPEN with the timer at the fifth failure's instant; while fewer than
60 s have elapsed every call is rejected without invoking the wrapped
probe and without changing state; once 60 s have elapsed the next call
is allowed through as a trial — success returns the breaker to CLOSED,
failure returns it to OPEN with the timer reset, so the immediately
following call is rejected again (exactly one trial is let through). -/
theorem C6_breaker_lifecycle (t0 t1 t2 t3 t4 t t' u : ℕ)
    (hreject : t < t4 + recoveryTimeout)
    (htrial : t4 + recoveryTimeout ≤ t')
    (hreject2 : u < t' + recoveryTimeout) :
    Breaker.init.st = .closed ∧
    Breaker.run .init [(t0, false), (t1, false), (t2, false), (t3, false), (t4, false)]
      = (⟨.opened, 5, t4⟩, 5) ∧
    (∀ probe, Breaker.call ⟨.opened, 5, t4⟩ t probe
        = ((.rejected, false), ⟨.opened, 5, t4⟩)) ∧
    (∀ probe, (Breaker.call ⟨.opened, 5, t4⟩ t' probe).1.2 = true) ∧
    (Breaker.call ⟨.opened, 5, t4⟩ t' true).2 = ⟨.closed, 0, t4⟩ ∧
    (Breaker.call ⟨.opened, 5, t4⟩ t' false).2 = ⟨.opened, 5, t'⟩ ∧
    (∀ probe, Breaker.call ⟨.opened, 5, t'⟩ u probe
        = ((.rejected, false), ⟨.opened, 5, t'⟩)) := by
  refine ⟨rfl, ?_, ?_, ?_, ?_, ?_, ?_⟩
  · simp [Breaker.run, Breaker.call, Breaker.init, failureThreshold]
  · intro probe
    simp [Breaker.call, hreject]
  · intro probe
    have hn : ¬ t' < t4 + recoveryTimeout := by omega
    cases probe <;> simp [Breaker.call, hn]
  · have hn : ¬ t' < t4 + recoveryTimeout := by omega
    simp [Breaker.call, hn]
  · have hn : ¬ t' < t4 + recoveryTimeout := by omega
    simp [Breaker.call, hn]
  · intro probe
    simp [Breaker.call, hreject2]

/-- Witness for the breaker lifecycle: five failures at instants 0–4
open the breaker with the timer at 4. -/
theorem C6_witness :
    Breaker.run .init [(0, false), (1, false), (2, false), (3, false), (4, false)]
      = (⟨.opened, 5, 4⟩, 5) :=
  (C6_breaker_lifecycle 0 1 2 3 4 30 64 100 (by decide) (by decide) (by decide)).2.1

end WebHealth
